import Mathlib

/-!
Shallow embedding of the elephant-replicant replication engine
(`internal/state.go`, `internal/content_filter.go`, `postgres/queries.sql`)
and proofs about it.

Modelling conventions:
* UUIDs are strings (the engine only parses and re-serialises them).
* Timestamps are strings (never inspected by the engine).
* The three database tables the engine touches are modelled as finite maps
  (`TxState`); the SQL upserts/deletes of `postgres/queries.sql` become
  function updates.
* External calls (source repository RPCs, target repository RPCs, the HTTP
  attachment transfer) are oracles supplied in an `EventEnv`: for each call
  the environment fixes the response the outside world would give for this
  event.  Database faults (connection errors etc.) are injected through
  `DbFaults` flags, one per query site.
* Go errors are modelled by the `HandleResult` outcome: a nil return is
  `applied`, `ErrSkipped` is `skipped`, `ErrConflict` is `conflict`, any
  other error is `fatal`.
* A transaction that is rolled back leaves the database unchanged: outcomes
  on every non-commit exit carry the caller's `TxState` unchanged, while the
  target repository RPCs that were already issued stay recorded
  (`updateSent` / `deleteSent`), matching the fact that the target write is
  a side effect escaping the transaction.
* Go map iteration order over `meta.Heads` is unspecified; the model fixes
  it as association-list order, which is irrelevant to the set-level
  properties proved here.
-/

namespace Replicant

/-- The checkpoint state blob `LogState` (`state.go`). -/
structure LogState where
  CaughtUp : Bool
  Position : Int
  deriving Repr, DecidableEq

/-- A status head from source meta: `Heads: map<statusName, {Version, Meta}>`. -/
structure StatusHead where
  Version : Int
  Meta : List (String × String)
  deriving Repr, DecidableEq

/-- Source `GetMeta` response payload (the fields the engine consumes;
`Attachments` keeps only the names, the engine reads nothing else). -/
structure DocumentMeta where
  Acl : List String
  Created : String
  CreatorUri : String
  CurrentVersion : Int
  Heads : List (String × StatusHead)
  Attachments : List String
  deriving Repr, DecidableEq

/-- A newsdoc block; the configured section matchers read `Rel` and `UUID`
only, so the model keeps those fields. -/
structure Block where
  Rel : String
  UUID : String
  deriving Repr, DecidableEq

/-- A newsdoc document, restricted to the fields the engine consumes:
the type (for the content filter's per-type filter list) and the three
block lists. -/
structure Document where
  Type' : String
  Links : List Block
  Meta : List Block
  Content : List Block
  deriving Repr, DecidableEq

/-- An eventlog item (`repository.EventlogItem`), fields consumed by the
engine.  `Type'` is the Go field `Type` (the document type); `Event` is the
event kind. -/
structure EventlogItem where
  Id : Int
  Uuid : String
  Type' : String
  Event : String
  Version : Int
  Status : String
  StatusId : Int
  UpdaterUri : String
  Timestamp : String
  AttachedObjects : List String
  DeleteRecordId : Int
  deriving Repr, DecidableEq

/-- `repository.ImportDirective`. -/
structure ImportDirective where
  OriginallyCreated : String
  OriginalCreator : String
  deriving Repr, DecidableEq

/-- `repository.StatusUpdate`; `Version = 0` is the unset proto default. -/
structure StatusUpdate where
  Name : String
  Version : Int
  Meta : List (String × String)
  deriving Repr, DecidableEq

/-- `repository.UpdateRequest` as built by `handleEvent`.  `IfMatch = 0` is
the unset proto default; `AttachObjects` is the upload-id map. -/
structure UpdateRequest where
  Uuid : String
  Document : Option Document
  Acl : List String
  Status : List StatusUpdate
  ImportDirective : Option ImportDirective
  IfMatch : Int
  AttachObjects : List (String × String)
  deriving Repr, DecidableEq

/-- `repository.DeleteDocumentRequest` (the fields `handleDeleteEvent`
fills in). -/
structure DeleteDocumentRequest where
  Uuid : String
  Meta : List (String × String)
  deriving Repr, DecidableEq

/-- `repository.AttachmentDetails` fields consumed by the transfer. -/
structure AttachmentDetails where
  Filename : String
  ContentType : String
  DownloadLink : String
  deriving Repr, DecidableEq

/-- `internal.AttachmentRef` (`-include-attachments` entries). -/
structure AttachmentRef where
  DocType : String
  Name : String
  deriving Repr, DecidableEq

/-- The engine configuration fields of `internal.Parameters` that
`handleEvent` and `Run` consume. -/
structure Params where
  IgnoreTypes : List String
  IgnoreSubs : List String
  IncludeAttachments : List AttachmentRef
  AllAttachments : Bool
  MinEventID : Int
  deriving Repr, DecidableEq

/-- Result of a source repository RPC: a payload, the well-known twirp
`NotFound` code, or any other error. -/
inductive RpcResult (α : Type) where
  | ok (val : α)
  | notFound
  | err
  deriving Repr, DecidableEq

/-- Result of the target `Update` RPC: a new target version, the well-known
twirp `FailedPrecondition` code, or any other error. -/
inductive UpdateResult where
  | ok (Version : Int)
  | failedPrecondition
  | err
  deriving Repr, DecidableEq

/-- Classified outcome of `handleEvent`: nil / `ErrSkipped` /
`ErrConflict` / any other error. -/
inductive HandleResult where
  | applied
  | skipped
  | conflict
  | fatal
  deriving Repr, DecidableEq

/-- Fault-injection flags: one per database call site of the applier.  A
set flag makes that query or statement fail with a generic database error
(never `pgx.ErrNoRows`). -/
structure DbFaults where
  beginTx : Bool
  getDocumentVersion : Bool
  getTargetVersion : Bool
  setDocumentVersion : Bool
  addVersionMapping : Bool
  setState : Bool
  commit : Bool
  removeDocument : Bool
  removeDocumentVersionMappings : Bool
  deriving Repr, DecidableEq

/-- The `DbFaults` record with every flag cleared. -/
def DbFaults.none : DbFaults :=
  { beginTx := false, getDocumentVersion := false, getTargetVersion := false
    setDocumentVersion := false, addVersionMapping := false, setState := false
    commit := false, removeDocument := false
    removeDocumentVersionMappings := false }

/-- Environment of one `handleEvent` call: responses of the outside world
(source repository, target repository, attachment HTTP transfer) plus the
database fault flags. -/
structure EventEnv where
  getMeta : RpcResult DocumentMeta
  getDoc : Int → RpcResult Document
  getStatus : RpcResult (List (String × String))
  getAttachments : String → Option (Option AttachmentDetails)
  transfer : String → Option String
  updateResult : UpdateResult
  deleteOk : Bool
  faults : DbFaults

/-- The replicator's database: the `document` table, the `version_mapping`
table and the `state` blob row used by the engine (`log_state`). -/
structure TxState where
  docs : String → Option Int
  mappings : String → Int → Option Int
  stateBlob : Option LogState

/-- Query `SetDocumentVersion`: upsert of `document(id, target_version)`. -/
def TxState.SetDocumentVersion (db : TxState) (id : String)
    (targetVersion : Int) : TxState :=
  { db with docs := fun u => if u = id then some targetVersion else db.docs u }

/-- Query `AddVersionMapping`: upsert of
`version_mapping(id, source_version, target_version, created)`.  The
`created` column is irrelevant to the claims proved here and is dropped. -/
def TxState.AddVersionMapping (db : TxState) (id : String)
    (sourceVersion targetVersion : Int) : TxState :=
  { db with mappings := fun u sv =>
      if u = id ∧ sv = sourceVersion then some targetVersion
      else db.mappings u sv }

/-- `StoreState`/query `SetState` for the `log_state` row: JSON upsert. -/
def TxState.SetState (db : TxState) (st : LogState) : TxState :=
  { db with stateBlob := some st }

/-- Query `RemoveDocument`: `DELETE FROM document WHERE id = @id`. -/
def TxState.RemoveDocument (db : TxState) (id : String) : TxState :=
  { db with docs := fun u => if u = id then none else db.docs u }

/-- Query `RemoveDocumentVersionMappings`:
`DELETE FROM version_mapping WHERE id = @id`. -/
def TxState.RemoveDocumentVersionMappings (db : TxState) (id : String) :
    TxState :=
  { db with mappings := fun u sv => if u = id then none else db.mappings u sv }

/-- Outcome of one applier invocation: the classified result, the database
state after commit (unchanged on every rollback path), and the target
repository writes that were issued. -/
structure HandleOutcome where
  result : HandleResult
  db : TxState
  updateSent : Option UpdateRequest
  deleteSent : Option DeleteDocumentRequest

/-- Event-type constants of `state.go`. -/
def TypeDocumentVersion : String := "document"

def TypeNewStatus : String := "status"

def TypeACLUpdate : String := "acl"

def TypeDeleteDocument : String := "delete_document"

def TypeRestoreFinished : String := "restore_finished"

def TypeWorkflow : String := "workflow"

/-- `shouldReplicateAttachment`. -/
def shouldReplicateAttachment (p : Params) (name docType : String) : Bool :=
  p.AllAttachments ||
    p.IncludeAttachments.any (fun r => name == r.Name && docType == r.DocType)

/-- One assignment into a Go `map[string]string`. -/
def mapInsert (m : List (String × String)) (k v : String) :
    List (String × String) :=
  if m.any (fun q => q.1 == k) then
    m.map (fun q => if q.1 == k then (k, v) else q)
  else m ++ [(k, v)]

/-- The loop body of `prepareAttachments`: walk the attached-object names,
skip out-of-scope names, fetch the download link, skip attachments deleted
in source, transfer, and collect the upload ids.  `transferAttachment`'s
HTTP exchange is modelled by the `transfer` oracle (failure ⇒ fatal). -/
def attachLoop (p : Params) (env : EventEnv) (docType : String) :
    List String → List (String × String) →
      Except HandleResult (List (String × String))
  | [], acc => .ok acc
  | name :: rest, acc =>
    if ¬ shouldReplicateAttachment p name docType then
      attachLoop p env docType rest acc
    else
      match env.getAttachments name with
      | none => .error .fatal
      | some none => attachLoop p env docType rest acc
      | some (some _) =>
        match env.transfer name with
        | none => .error .fatal
        | some uploadID => attachLoop p env docType rest (mapInsert acc name uploadID)

/-- `prepareAttachments`. -/
def prepareAttachments (p : Params) (env : EventEnv) (evt : EventlogItem)
    (update : UpdateRequest) : Except HandleResult UpdateRequest :=
  if evt.AttachedObjects.isEmpty then .ok update
  else
    match attachLoop p env evt.Type' evt.AttachedObjects [] with
    | .error r => .error r
    | .ok objs => .ok { update with AttachObjects := objs }

/-- The `!caughtUp` enrichment block of `handleEvent`: fetch current meta
(`NotFound` ⇒ skipped), rewrite the event to the current version, on first
ingest take ACL / import directive / attachment names from meta, and append
a status update for every head at the current version. -/
def enrichCatchUp (env : EventEnv) (isNew : Bool) (evt : EventlogItem)
    (update : UpdateRequest) :
    Except HandleResult (EventlogItem × UpdateRequest) :=
  match env.getMeta with
  | .notFound => .error .skipped
  | .err => .error .fatal
  | .ok meta =>
    let evt := { evt with Version := meta.CurrentVersion }
    let (evt, update) :=
      if isNew then
        ({ evt with AttachedObjects := evt.AttachedObjects ++ meta.Attachments },
         { update with
            Acl := meta.Acl
            ImportDirective := some
              { OriginallyCreated := meta.Created
                OriginalCreator := meta.CreatorUri } })
      else (evt, update)
    let update := { update with
      Status := update.Status ++
        (meta.Heads.filter (fun h => h.2.Version == meta.CurrentVersion)).map
          (fun h => { Name := h.1, Version := 0, Meta := h.2.Meta }) }
    .ok (evt, update)

/-- The `case TypeDocumentVersion` arm of `handleEvent`'s switch. -/
def fetchDocument (p : Params) (env : EventEnv) (evt : EventlogItem)
    (update : UpdateRequest) : Except HandleResult UpdateRequest :=
  match env.getDoc evt.Version with
  | .notFound => .error .skipped
  | .err => .error .fatal
  | .ok doc => prepareAttachments p env evt { update with Document := some doc }

/-- Continuation of the `case TypeNewStatus` arm after the version-map
lookup: fetch the source status (`NotFound` ⇒ skipped) and append the
single status update carrying the mapped target version. -/
def fetchStatusRest (env : EventEnv) (evt : EventlogItem)
    (update : UpdateRequest) (mappedVersion : Int) :
    Except HandleResult UpdateRequest :=
  match env.getStatus with
  | .notFound => .error .skipped
  | .err => .error .fatal
  | .ok meta =>
    .ok { update with Status := update.Status ++
          [{ Name := evt.Status, Version := mappedVersion, Meta := meta }] }

/-- The `case TypeNewStatus` arm of the switch.  NOTE, faithful to the
source: only the `pgx.ErrNoRows` condition of `GetTargetVersion` is
checked; any other query error is not examined, so execution continues with
the zero value for `mappedVersion`. -/
def fetchStatus (env : EventEnv) (db : TxState) (evt : EventlogItem)
    (update : UpdateRequest) : Except HandleResult UpdateRequest :=
  if env.faults.getTargetVersion then
    fetchStatusRest env evt update 0
  else
    match db.mappings evt.Uuid evt.Version with
    | none => .error .skipped
    | some tv => fetchStatusRest env evt update tv

/-- The `case TypeACLUpdate` arm of the switch. -/
def fetchAcl (env : EventEnv) (update : UpdateRequest) :
    Except HandleResult UpdateRequest :=
  match env.getMeta with
  | .notFound => .error .skipped
  | .err => .error .fatal
  | .ok meta => .ok { update with Acl := meta.Acl }

/-- The checkpoint write and commit closing `handleEvent`'s transaction:
`db0` is the pre-transaction state restored by rollback, `db2` the state
accumulated inside the transaction. -/
def finishCommit (env : EventEnv) (db0 db2 : TxState) (evt : EventlogItem)
    (caughtUp : Bool) (update : UpdateRequest) : HandleOutcome :=
  if env.faults.setState then
    { result := .fatal, db := db0, updateSent := some update, deleteSent := none }
  else
    let db3 := db2.SetState { CaughtUp := caughtUp, Position := evt.Id }
    if env.faults.commit then
      { result := .fatal, db := db0, updateSent := some update, deleteSent := none }
    else
      { result := .applied, db := db3, updateSent := some update, deleteSent := none }

/-- Post-write bookkeeping of `handleEvent`: for a document update, upsert
the target-doc record and the version-mapping row, then checkpoint and
commit. -/
def bookkeep (env : EventEnv) (db : TxState) (evt : EventlogItem)
    (caughtUp : Bool) (updateType : String) (update : UpdateRequest)
    (upVersion : Int) : HandleOutcome :=
  if updateType = TypeDocumentVersion then
    if env.faults.setDocumentVersion then
      { result := .fatal, db := db, updateSent := some update, deleteSent := none }
    else
      let db1 := db.SetDocumentVersion evt.Uuid upVersion
      if env.faults.addVersionMapping then
        { result := .fatal, db := db, updateSent := some update, deleteSent := none }
      else
        finishCommit env db
          (db1.AddVersionMapping evt.Uuid evt.Version upVersion)
          evt caughtUp update
  else
    finishCommit env db db evt caughtUp update

/-- `handleDeleteEvent`: open a transaction, remove the target-doc record
and all version-mapping rows for the UUID, issue the target `Delete` with
the source delete-record id as metadata, commit.  No checkpoint write. -/
def handleDeleteEvent (env : EventEnv) (db : TxState) (evt : EventlogItem) :
    HandleOutcome :=
  if env.faults.beginTx then
    { result := .fatal, db := db, updateSent := none, deleteSent := none }
  else if env.faults.removeDocument then
    { result := .fatal, db := db, updateSent := none, deleteSent := none }
  else
    let db1 := db.RemoveDocument evt.Uuid
    if env.faults.removeDocumentVersionMappings then
      { result := .fatal, db := db, updateSent := none, deleteSent := none }
    else
      let db2 := db1.RemoveDocumentVersionMappings evt.Uuid
      let req : DeleteDocumentRequest :=
        { Uuid := evt.Uuid
          Meta := [("original_delete_record", toString evt.DeleteRecordId)] }
      if ¬ env.deleteOk then
        { result := .fatal, db := db, updateSent := none, deleteSent := some req }
      else if env.faults.commit then
        { result := .fatal, db := db, updateSent := none, deleteSent := some req }
      else
        { result := .applied, db := db2, updateSent := none, deleteSent := some req }

/-- The tail of `handleEvent` after the per-type switch: set `IfMatch` for
documents that already have a target-doc record, call the target `Update`
(`FailedPrecondition` ⇒ conflict, other errors ⇒ fatal) and run the
post-write bookkeeping. -/
def sendUpdate (env : EventEnv) (db : TxState) (evt : EventlogItem)
    (caughtUp : Bool) (updateType : String) (isNew : Bool)
    (targetVersion : Int) (fetched : Except HandleResult UpdateRequest) :
    HandleOutcome :=
  match fetched with
  | .error r => { result := r, db := db, updateSent := none, deleteSent := none }
  | .ok update =>
    -- We just let new documents overwrite whatever is there.
    let update :=
      if ¬ isNew then { update with IfMatch := targetVersion } else update
    match env.updateResult with
    | .failedPrecondition =>
      { result := .conflict, db := db, updateSent := some update, deleteSent := none }
    | .err =>
      { result := .fatal, db := db, updateSent := some update, deleteSent := none }
    | .ok upVersion =>
      bookkeep env db evt caughtUp updateType update upVersion

/-- `handleEvent`, parameterised over the handler of the `document` switch
arm (`fetchDoc` applied to the possibly rewritten event), so that the
spec-modelled content-filter variant below can share every other line. -/
def handleEventWith (p : Params) (env : EventEnv)
    (fetchDoc : EventlogItem → UpdateRequest → Except HandleResult UpdateRequest)
    (db : TxState) (evt : EventlogItem) (caughtUp : Bool) : HandleOutcome :=
  if p.IgnoreSubs.contains evt.UpdaterUri then
    { result := .skipped, db := db, updateSent := none, deleteSent := none }
  else if p.IgnoreTypes.contains evt.Type' then
    { result := .skipped, db := db, updateSent := none, deleteSent := none }
  else if evt.Type' = TypeDeleteDocument then
    -- Faithful to the source: the dispatch compares the document-type
    -- field `Type` against the event-type constant `TypeDeleteDocument`.
    handleDeleteEvent env db evt
  else if env.faults.beginTx then
    { result := .fatal, db := db, updateSent := none, deleteSent := none }
  else if env.faults.getDocumentVersion then
    { result := .fatal, db := db, updateSent := none, deleteSent := none }
  else
    let docRow := db.docs evt.Uuid
    let isNew := docRow.isNone
    let targetVersion := docRow.getD 0
    let update : UpdateRequest :=
      { Uuid := evt.Uuid
        Document := none
        Acl := []
        Status := []
        ImportDirective := some
          { OriginallyCreated := evt.Timestamp
            OriginalCreator := evt.UpdaterUri }
        IfMatch := 0
        AttachObjects := [] }
    let updateType := if caughtUp then evt.Event else TypeDocumentVersion
    let enriched : Except HandleResult (EventlogItem × UpdateRequest) :=
      if caughtUp then .ok (evt, update)
      else enrichCatchUp env isNew evt update
    match enriched with
    | .error r => { result := r, db := db, updateSent := none, deleteSent := none }
    | .ok (evt, update) =>
      sendUpdate env db evt caughtUp updateType isNew targetVersion
        (if updateType = TypeDocumentVersion then fetchDoc evt update
         else if updateType = TypeNewStatus then fetchStatus env db evt update
         else if updateType = TypeACLUpdate then fetchAcl env update
         else .error .skipped)

/-- `handleEvent` as written in `internal/state.go`. -/
def handleEvent (p : Params) (env : EventEnv) (db : TxState)
    (evt : EventlogItem) (caughtUp : Bool) : HandleOutcome :=
  handleEventWith p env (fetchDocument p env) db evt caughtUp

/-- `newsdoc.FirstBlock`: first block of the list accepted by the
matcher. -/
def FirstBlock (list : List Block) (matcher : Block → Bool) : Option Block :=
  list.find? matcher

/-- Block kinds of `content_filter.go`. -/
inductive BlockKind where
  | link
  | meta
  | content
  deriving Repr, DecidableEq

/-- `internal.BlockFilter`. -/
structure BlockFilter where
  Kind : BlockKind
  Matcher : Block → Bool

/-- `internal.ContentFilter`: per-document-type filter lists (`types` is
the Go map, absent keys give the empty list). -/
structure ContentFilter where
  types : String → List BlockFilter

/-- The loop body of `ContentFilter.Check`: reject (false) as soon as one
filter's block list contains a matching block. -/
def checkFilters (doc : Document) : List BlockFilter → Bool
  | [] => true
  | f :: rest =>
    let list :=
      match f.Kind with
      | .link => doc.Links
      | .meta => doc.Meta
      | .content => doc.Content
    if (FirstBlock list f.Matcher).isSome then false
    else checkFilters doc rest

/-- `ContentFilter.Check`: true when the document passes all filters
registered for its type. -/
def ContentFilter.Check (cf : ContentFilter) (doc : Document) : Bool :=
  checkFilters doc (cf.types doc.Type')

/-- Split a character list at the first occurrence of the separator. -/
def cutList (sep : Char) : List Char → Option (List Char × List Char)
  | [] => none
  | c :: rest =>
    if c = sep then some ([], rest)
    else
      match cutList sep rest with
      | none => none
      | some (a, b) => some (c :: a, b)

/-- `strings.Cut` for a one-character separator (the engine only cuts at
`":"` and `"."`): the text before and after the first occurrence, or
`none` when the separator does not occur. -/
def stringCut (s : String) (sep : Char) : Option (String × String) :=
  match cutList sep s.toList with
  | none => none
  | some (a, b) => some (String.mk a, String.mk b)

/-- The loop of `NewContentFilterFromParams` over the configured
`<doc_type>:<section_uuid>` entries. -/
def contentFilterAdd (cf : ContentFilter) :
    List String → Except String ContentFilter
  | [] => .ok cf
  | exp :: rest =>
    match stringCut exp ':' with
    | none => .error ("invalid section filter " ++ exp)
    | some (docType, sectionUUID) =>
      let matcher := fun (block : Block) =>
        block.Rel == "section" && block.UUID == sectionUUID
      let cf : ContentFilter :=
        { types := fun t =>
            if t = docType then cf.types t ++ [{ Kind := .link, Matcher := matcher }]
            else cf.types t }
      contentFilterAdd cf rest

/-- `NewContentFilterFromParams` over the `IgnoreSections` entries. -/
def NewContentFilterFromParams (ignoreSections : List String) :
    Except String ContentFilter :=
  contentFilterAdd { types := fun _ => [] } ignoreSections

/-- Modelled from the spec: the call site of `ContentFilter.Check` inside
`handleEvent`'s document path is not present in the `state.go` under
`src` (that snapshot's `Parameters` predates the `IgnoreSections` field
that `content_filter.go` reads).  Per spec §4.4 the engine consults the
filter after fetching a document body in the `document` path and rejection
becomes `skipped`.  Everything except the added `Check` consult is the
source's `document` arm. -/
def fetchDocumentFiltered (cf : ContentFilter) (p : Params) (env : EventEnv)
    (evt : EventlogItem) (update : UpdateRequest) :
    Except HandleResult UpdateRequest :=
  match env.getDoc evt.Version with
  | .notFound => .error .skipped
  | .err => .error .fatal
  | .ok doc =>
    if ¬ cf.Check doc then .error .skipped
    else prepareAttachments p env evt { update with Document := some doc }

/-- Modelled from the spec: `handleEvent` with the content-filter consult
in the document path (see `fetchDocumentFiltered`); all other lines are
shared with `handleEvent` through `handleEventWith`. -/
def handleEventFiltered (cf : ContentFilter) (p : Params) (env : EventEnv)
    (db : TxState) (evt : EventlogItem) (caughtUp : Bool) : HandleOutcome :=
  handleEventWith p env (fetchDocumentFiltered cf p env) db evt caughtUp

/-- The item loop of `Replicate`: advance `pos` to each item id, skip
workflow events, hand the rest to the applier; skipped and conflict
outcomes keep `lastSaved` behind, applied outcomes set `lastSaved = pos`,
fatal outcomes terminate (`none`). -/
def processItems (p : Params) (envOf : EventlogItem → EventEnv)
    (caughtUp : Bool) :
    List EventlogItem → TxState → Int → Int → Option (TxState × Int × Int)
  | [], db, pos, lastSaved => some (db, pos, lastSaved)
  | item :: rest, db, pos, lastSaved =>
    let pos := item.Id
    if item.Event = TypeWorkflow then
      processItems p envOf caughtUp rest db pos lastSaved
    else
      let out := handleEvent p (envOf item) db item caughtUp
      match out.result with
      | .skipped => processItems p envOf caughtUp rest out.db pos lastSaved
      | .conflict => processItems p envOf caughtUp rest out.db pos lastSaved
      | .fatal => none
      | .applied => processItems p envOf caughtUp rest out.db pos pos
  termination_by items => items.length

/-- One batch iteration of `Replicate`: run the item loop, then write the
post-batch checkpoint when the tail of the batch was skipped
(`lastSaved != pos`).  `none` is the fatal return that terminates
replication. -/
def replicateBatch (p : Params) (envOf : EventlogItem → EventEnv)
    (caughtUp : Bool) (items : List EventlogItem) (db : TxState)
    (pos0 : Int) : Option TxState :=
  match processItems p envOf caughtUp items db pos0 0 with
  | none => none
  | some (db, pos, lastSaved) =>
    if lastSaved ≠ pos then
      some (db.SetState { CaughtUp := caughtUp, Position := pos })
    else some db

/-- `LoadState` on the `log_state` row: an absent row leaves the
zero-valued `LogState` untouched. -/
def LoadStateResult (stored : Option LogState) : LogState :=
  match stored with
  | none => { CaughtUp := false, Position := 0 }
  | some s => s

/-- The start position computed by `Run`:
`state.Position = max(state.Position, p.MinEventID)` handed to the log
follower as `StartAfter`. -/
def runStartPosition (stored : Option LogState) (minEventID : Int) : Int :=
  max (LoadStateResult stored).Position minEventID

/-! ### Concrete instances used by counterexamples and witnesses -/

/-- An empty replicator database. -/
def emptyDb : TxState :=
  { docs := fun _ => none, mappings := fun _ _ => none, stateBlob := none }

/-- A configuration with empty ignore lists and no attachment replication. -/
def pNone : Params :=
  { IgnoreTypes := [], IgnoreSubs := [], IncludeAttachments := []
    AllAttachments := false, MinEventID := 0 }

/-- A trivial document body. -/
def plainDoc : Document :=
  { Type' := "core/article", Links := [], Meta := [], Content := [] }

def c1evt : EventlogItem :=
  { Id := 5, Uuid := "9f1a7c2e-0b65-4c38-a56b-8f3e6d1c9a42"
    Type' := "core/article", Event := "document", Version := 3
    Status := "", StatusId := 0, UpdaterUri := "core://user/alice"
    Timestamp := "2024-01-02T03:04:05Z", AttachedObjects := []
    DeleteRecordId := 0 }

def c1env : EventEnv :=
  { getMeta := .err, getDoc := fun _ => .ok plainDoc, getStatus := .err
    getAttachments := fun _ => none, transfer := fun _ => none
    updateResult := .failedPrecondition, deleteOk := true
    faults := DbFaults.none }

def c2meta : DocumentMeta :=
  { Acl := ["unit://sports doc_read"]
    Created := "2020-01-01T00:00:00Z"
    CreatorUri := "core://user/creator"
    CurrentVersion := 7
    Heads := [("draft", { Version := 7, Meta := [("k", "v")] }),
              ("done", { Version := 6, Meta := [] })]
    Attachments := [] }

def c2evt : EventlogItem :=
  { Id := 4, Uuid := "b2a3e4d5-1111-4f66-9c77-aa55bb66cc77"
    Type' := "core/article", Event := "status", Version := 2
    Status := "draft", StatusId := 1, UpdaterUri := "core://user/bob"
    Timestamp := "2024-05-05T00:00:00Z", AttachedObjects := []
    DeleteRecordId := 0 }

def c2db : TxState :=
  { docs := fun u =>
      if u = "b2a3e4d5-1111-4f66-9c77-aa55bb66cc77" then some 10 else none
    mappings := fun _ _ => none, stateBlob := none }

def c2env : EventEnv :=
  { getMeta := .ok c2meta
    getDoc := fun v => if v = 7 then .ok plainDoc else .notFound
    getStatus := .err, getAttachments := fun _ => none
    transfer := fun _ => none, updateResult := .ok 11, deleteOk := true
    faults := DbFaults.none }

def c3evt : EventlogItem :=
  { Id := 6, Uuid := "7cc0a1b2-2222-4d33-8e44-ff0011223344"
    Type' := "core/article", Event := "status", Version := 5
    Status := "approved", StatusId := 42, UpdaterUri := "core://user/alice"
    Timestamp := "2024-06-06T00:00:00Z", AttachedObjects := []
    DeleteRecordId := 0 }

def c3db : TxState :=
  { docs := fun u =>
      if u = "7cc0a1b2-2222-4d33-8e44-ff0011223344" then some 9 else none
    mappings := fun u sv =>
      if u = "7cc0a1b2-2222-4d33-8e44-ff0011223344" ∧ sv = 5 then some 11
      else none
    stateBlob := none }

def c3env : EventEnv :=
  { getMeta := .err, getDoc := fun _ => .err
    getStatus := .ok [("why", "it is fine")]
    getAttachments := fun _ => none, transfer := fun _ => none
    updateResult := .ok 12, deleteOk := true, faults := DbFaults.none }

def c4evt : EventlogItem :=
  { Id := 8, Uuid := "5dd0a1b2-3333-4d33-8e44-001122334455"
    Type' := "core/article", Event := "status", Version := 5
    Status := "usable", StatusId := 2, UpdaterUri := "core://user/alice"
    Timestamp := "2024-07-07T00:00:00Z", AttachedObjects := []
    DeleteRecordId := 0 }

def c4env : EventEnv :=
  { getMeta := .err, getDoc := fun _ => .err, getStatus := .ok []
    getAttachments := fun _ => none, transfer := fun _ => none
    updateResult := .ok 13, deleteOk := true, faults := DbFaults.none }

def c5evt : EventlogItem :=
  { Id := 9, Uuid := "3ad063b9-3a5d-4cd2-9a81-4e08b653c477"
    Type' := "core/article", Event := "delete_document", Version := 3
    Status := "", StatusId := 0, UpdaterUri := "core://user/alice"
    Timestamp := "2024-08-08T00:00:00Z", AttachedObjects := []
    DeleteRecordId := 77 }

def c5env : EventEnv :=
  { getMeta := .err, getDoc := fun _ => .err, getStatus := .err
    getAttachments := fun _ => none, transfer := fun _ => none
    updateResult := .ok 21, deleteOk := true, faults := DbFaults.none }

def c7sectionUUID : String := "5f2837a6-29b7-4e0e-8d8a-75b3eaea9f57"

/-- The content filter built by the source constructor from one
`core/article:<section>` entry. -/
def c7cf : ContentFilter :=
  match NewContentFilterFromParams ["core/article:" ++ c7sectionUUID] with
  | .ok cf => cf
  | .error _ => { types := fun _ => [] }

def c7doc : Document :=
  { Type' := "core/article"
    Links := [{ Rel := "section", UUID := c7sectionUUID }]
    Meta := [], Content := [] }

def c7evt : EventlogItem :=
  { Id := 10, Uuid := "8ee0a1b2-4444-4d33-8e44-667788990011"
    Type' := "core/article", Event := "document", Version := 2
    Status := "", StatusId := 0, UpdaterUri := "core://user/alice"
    Timestamp := "2024-09-09T00:00:00Z", AttachedObjects := []
    DeleteRecordId := 0 }

def c7env : EventEnv :=
  { getMeta := .err, getDoc := fun _ => .ok c7doc, getStatus := .err
    getAttachments := fun _ => none, transfer := fun _ => none
    updateResult := .ok 14, deleteOk := true, faults := DbFaults.none }

def c8evt : EventlogItem :=
  { Id := 12, Uuid := "2bb0a1b2-5555-4d33-8e44-aabbccddeeff"
    Type' := "core/article", Event := "status", Version := 5
    Status := "approved", StatusId := 3, UpdaterUri := "core://user/alice"
    Timestamp := "2024-10-10T00:00:00Z", AttachedObjects := []
    DeleteRecordId := 0 }

/-- Environment for the status path where the version-map lookup fails with
a database error that is not `pgx.ErrNoRows`. -/
def c8env : EventEnv :=
  { getMeta := .err, getDoc := fun _ => .err
    getStatus := .ok [("note", "x")]
    getAttachments := fun _ => none, transfer := fun _ => none
    updateResult := .ok 22, deleteOk := true
    faults := { DbFaults.none with getTargetVersion := true } }

def c9evt : EventlogItem :=
  { Id := 14, Uuid := "4cc0a1b2-6666-4d33-8e44-112233445566"
    Type' := "core/article", Event := "document", Version := 3
    Status := "", StatusId := 0, UpdaterUri := "core://user/alice"
    Timestamp := "2024-11-11T00:00:00Z", AttachedObjects := []
    DeleteRecordId := 0 }

def c9env : EventEnv :=
  { getMeta := .err, getDoc := fun _ => .ok plainDoc, getStatus := .err
    getAttachments := fun _ => none, transfer := fun _ => none
    updateResult := .ok 7, deleteOk := true, faults := DbFaults.none }

def c10evt : EventlogItem :=
  { Id := 16, Uuid := "6aa0a1b2-7777-4d33-8e44-223344556677"
    Type' := "delete_document", Event := "delete_document", Version := 0
    Status := "", StatusId := 0, UpdaterUri := "core://user/alice"
    Timestamp := "2024-12-12T00:00:00Z", AttachedObjects := []
    DeleteRecordId := 99 }

def c10db : TxState :=
  { docs := fun u =>
      if u = "6aa0a1b2-7777-4d33-8e44-223344556677" then some 3 else none
    mappings := fun u sv =>
      if u = "6aa0a1b2-7777-4d33-8e44-223344556677" ∧ sv = 1 then some 2
      else none
    stateBlob := some { CaughtUp := true, Position := 2 } }

def c10env : EventEnv :=
  { getMeta := .err, getDoc := fun _ => .err, getStatus := .err
    getAttachments := fun _ => none, transfer := fun _ => none
    updateResult := .ok 15, deleteOk := true, faults := DbFaults.none }

/-! ### Helper lemmas shared by the claim theorems -/

theorem handleDeleteEvent_updateSent (env : EventEnv) (db : TxState)
    (evt : EventlogItem) : (handleDeleteEvent env db evt).updateSent = none := by
  cases h1 : env.faults.beginTx <;> cases h2 : env.faults.removeDocument <;>
    cases h3 : env.faults.removeDocumentVersionMappings <;>
    cases h4 : env.deleteOk <;> cases h5 : env.faults.commit <;>
    simp [handleDeleteEvent, h1, h2, h3, h4, h5]

theorem handleDeleteEvent_stateBlob (env : EventEnv) (db : TxState)
    (evt : EventlogItem) :
    (handleDeleteEvent env db evt).db.stateBlob = db.stateBlob := by
  cases h1 : env.faults.beginTx <;> cases h2 : env.faults.removeDocument <;>
    cases h3 : env.faults.removeDocumentVersionMappings <;>
    cases h4 : env.deleteOk <;> cases h5 : env.faults.commit <;>
    simp [handleDeleteEvent, h1, h2, h3, h4, h5,
      TxState.RemoveDocument, TxState.RemoveDocumentVersionMappings]

theorem handleDeleteEvent_mappings_mono (env : EventEnv) (db : TxState)
    (evt : EventlogItem) (u : String) (sv tv : Int)
    (h : (handleDeleteEvent env db evt).db.mappings u sv = some tv) :
    db.mappings u sv = some tv := by
  cases h1 : env.faults.beginTx <;> cases h2 : env.faults.removeDocument <;>
    cases h3 : env.faults.removeDocumentVersionMappings <;>
    cases h4 : env.deleteOk <;> cases h5 : env.faults.commit <;>
    simp [handleDeleteEvent, h1, h2, h3, h4, h5,
      TxState.RemoveDocument, TxState.RemoveDocumentVersionMappings] at h <;>
    first
    | exact h
    | exact h.2
    | (split at h <;> simp_all)

theorem sendUpdate_error (env : EventEnv) (db : TxState) (evt : EventlogItem)
    (cu : Bool) (ut : String) (isNew : Bool) (tv : Int) (r : HandleResult) :
    sendUpdate env db evt cu ut isNew tv (.error r) =
      { result := r, db := db, updateSent := none, deleteSent := none } := rfl

theorem sendUpdate_conflict (env : EventEnv) (db : TxState)
    (evt : EventlogItem) (cu : Bool) (ut : String) (isNew : Bool) (tv : Int)
    (fetched : Except HandleResult UpdateRequest)
    (hfp : env.updateResult = .failedPrecondition) :
    (sendUpdate env db evt cu ut isNew tv fetched).updateSent.isSome →
    (sendUpdate env db evt cu ut isNew tv fetched).result = .conflict ∧
    (sendUpdate env db evt cu ut isNew tv fetched).db = db ∧
    (sendUpdate env db evt cu ut isNew tv fetched).deleteSent = none := by
  cases fetched <;> simp [sendUpdate, hfp]

theorem sendUpdate_sent_Status (env : EventEnv) (db : TxState)
    (evt : EventlogItem) (cu : Bool) (ut : String) (isNew : Bool) (tv : Int)
    (u : UpdateRequest) :
    (sendUpdate env db evt cu ut isNew tv (.ok u)).updateSent.map
      (fun q => q.Status) = some u.Status := by
  cases hur : env.updateResult <;> cases isNew <;>
    simp [sendUpdate, hur, bookkeep, finishCommit] <;>
    (repeat' split) <;> (try simp_all)

theorem sendUpdate_sent_Acl (env : EventEnv) (db : TxState)
    (evt : EventlogItem) (cu : Bool) (ut : String) (isNew : Bool) (tv : Int)
    (u : UpdateRequest) :
    (sendUpdate env db evt cu ut isNew tv (.ok u)).updateSent.map
      (fun q => q.Acl) = some u.Acl := by
  cases hur : env.updateResult <;> cases isNew <;>
    simp [sendUpdate, hur, bookkeep, finishCommit] <;>
    (repeat' split) <;> (try simp_all)

theorem sendUpdate_sent_Document (env : EventEnv) (db : TxState)
    (evt : EventlogItem) (cu : Bool) (ut : String) (isNew : Bool) (tv : Int)
    (u : UpdateRequest) :
    (sendUpdate env db evt cu ut isNew tv (.ok u)).updateSent.map
      (fun q => q.Document) = some u.Document := by
  cases hur : env.updateResult <;> cases isNew <;>
    simp [sendUpdate, hur, bookkeep, finishCommit] <;>
    (repeat' split) <;> (try simp_all)

theorem sendUpdate_sent_ImportDirective (env : EventEnv) (db : TxState)
    (evt : EventlogItem) (cu : Bool) (ut : String) (isNew : Bool) (tv : Int)
    (u : UpdateRequest) :
    (sendUpdate env db evt cu ut isNew tv (.ok u)).updateSent.map
      (fun q => q.ImportDirective) = some u.ImportDirective := by
  cases hur : env.updateResult <;> cases isNew <;>
    simp [sendUpdate, hur, bookkeep, finishCommit] <;>
    (repeat' split) <;> (try simp_all)

set_option maxHeartbeats 1000000 in
theorem handleEventWith_conflict (p : Params) (env : EventEnv)
    (f : EventlogItem → UpdateRequest → Except HandleResult UpdateRequest)
    (db : TxState) (evt : EventlogItem) (cu : Bool)
    (hfp : env.updateResult = .failedPrecondition) :
    (handleEventWith p env f db evt cu).updateSent.isSome →
    (handleEventWith p env f db evt cu).result = .conflict ∧
    (handleEventWith p env f db evt cu).db = db ∧
    (handleEventWith p env f db evt cu).deleteSent = none := by
  unfold handleEventWith
  dsimp only
  repeat' split
  all_goals first
    | exact sendUpdate_conflict _ _ _ _ _ _ _ _ hfp
    | simp [handleDeleteEvent_updateSent]

theorem shouldReplicateAttachment_off (p : Params) (name docType : String)
    (hall : p.AllAttachments = false) (hinc : p.IncludeAttachments = []) :
    shouldReplicateAttachment p name docType = false := by
  simp [shouldReplicateAttachment, hall, hinc]

theorem attachLoop_off (p : Params) (env : EventEnv) (docType : String)
    (hall : p.AllAttachments = false) (hinc : p.IncludeAttachments = [])
    (names : List String) (acc : List (String × String)) :
    attachLoop p env docType names acc = .ok acc := by
  induction names with
  | nil => rfl
  | cons n rest ih =>
    simp [attachLoop, shouldReplicateAttachment_off p n docType hall hinc, ih]

theorem handleEvent_delete_dispatch (p : Params) (env : EventEnv)
    (db : TxState) (evt : EventlogItem) (cu : Bool)
    (hsub : evt.UpdaterUri ∉ p.IgnoreSubs)
    (htyp : evt.Type' ∉ p.IgnoreTypes)
    (hdel : evt.Type' = TypeDeleteDocument) :
    handleEvent p env db evt cu = handleDeleteEvent env db evt := by
  rw [hdel] at htyp
  simp [handleEvent, handleEventWith, hsub, htyp, hdel]

theorem bookkeep_mappings (env : EventEnv) (db : TxState) (evt : EventlogItem)
    (cu : Bool) (ut : String) (upd : UpdateRequest) (upV : Int)
    (u : String) (sv tv : Int)
    (happ : (bookkeep env db evt cu ut upd upV).result = .applied)
    (hrow : (bookkeep env db evt cu ut upd upV).db.mappings u sv = some tv) :
    db.mappings u sv = some tv ∨
    (bookkeep env db evt cu ut upd upV).db.docs u = some tv := by
  by_cases hut : ut = TypeDocumentVersion <;>
    cases h1 : env.faults.setDocumentVersion <;>
    cases h2 : env.faults.addVersionMapping <;>
    cases h3 : env.faults.setState <;>
    cases h4 : env.faults.commit <;>
    simp [bookkeep, finishCommit, hut, h1, h2, h3, h4,
      TxState.SetDocumentVersion, TxState.AddVersionMapping,
      TxState.SetState] at happ hrow ⊢ <;>
    first
    | exact Or.inl hrow
    | (split at hrow <;> simp_all)

theorem sendUpdate_mappings (env : EventEnv) (db : TxState)
    (evt : EventlogItem) (cu : Bool) (ut : String) (isNew : Bool) (tvv : Int)
    (fetched : Except HandleResult UpdateRequest) (u : String) (sv tv : Int)
    (happ : (sendUpdate env db evt cu ut isNew tvv fetched).result = .applied)
    (hrow : (sendUpdate env db evt cu ut isNew tvv fetched).db.mappings u sv = some tv) :
    db.mappings u sv = some tv ∨
    (sendUpdate env db evt cu ut isNew tvv fetched).db.docs u = some tv := by
  cases fetched with
  | error r =>
    simp only [sendUpdate] at hrow
    exact Or.inl hrow
  | ok q =>
    cases hur : env.updateResult with
    | failedPrecondition =>
      simp only [sendUpdate, hur] at hrow
      exact Or.inl hrow
    | err =>
      simp only [sendUpdate, hur] at hrow
      exact Or.inl hrow
    | ok v =>
      simp only [sendUpdate, hur] at happ hrow ⊢
      exact bookkeep_mappings env db evt cu ut _ v u sv tv happ hrow

set_option maxHeartbeats 2000000 in
theorem handleEventWith_mappings (p : Params) (env : EventEnv)
    (f : EventlogItem → UpdateRequest → Except HandleResult UpdateRequest)
    (db : TxState) (evt : EventlogItem) (cu : Bool) (u : String) (sv tv : Int) :
    (handleEventWith p env f db evt cu).result = .applied →
    (handleEventWith p env f db evt cu).db.mappings u sv = some tv →
    db.mappings u sv = some tv ∨
    (handleEventWith p env f db evt cu).db.docs u = some tv := by
  unfold handleEventWith
  dsimp only
  repeat' split
  all_goals intro happ hrow
  all_goals first
    | exact Or.inl (handleDeleteEvent_mappings_mono _ _ _ _ _ _ hrow)
    | exact sendUpdate_mappings _ _ _ _ _ _ _ _ _ _ _ happ hrow
    | exact Or.inl hrow
    | simp at happ

theorem status_ne_document : TypeNewStatus ≠ TypeDocumentVersion := by decide

theorem status_ne_workflow : TypeNewStatus ≠ TypeWorkflow := by decide

theorem status_ne_acl : TypeNewStatus ≠ TypeACLUpdate := by decide

theorem document_ne_workflow : TypeDocumentVersion ≠ TypeWorkflow := by decide

theorem sendUpdate_fetchDocument_sent_Acl (p : Params) (env : EventEnv)
    (db : TxState) (evt : EventlogItem) (cu : Bool) (ut : String)
    (isNew : Bool) (tv : Int) (update : UpdateRequest) (doc : Document)
    (hdoc : env.getDoc evt.Version = .ok doc)
    (hall : p.AllAttachments = false) (hinc : p.IncludeAttachments = []) :
    (sendUpdate env db evt cu ut isNew tv
      (fetchDocument p env evt update)).updateSent.map (fun u => u.Acl) =
      some update.Acl := by
  by_cases he : evt.AttachedObjects.isEmpty <;>
    simp [fetchDocument, hdoc, prepareAttachments, he,
      attachLoop_off p env evt.Type' hall hinc, sendUpdate_sent_Acl]

theorem sendUpdate_fetchDocument_sent_Status (p : Params) (env : EventEnv)
    (db : TxState) (evt : EventlogItem) (cu : Bool) (ut : String)
    (isNew : Bool) (tv : Int) (update : UpdateRequest) (doc : Document)
    (hdoc : env.getDoc evt.Version = .ok doc)
    (hall : p.AllAttachments = false) (hinc : p.IncludeAttachments = []) :
    (sendUpdate env db evt cu ut isNew tv
      (fetchDocument p env evt update)).updateSent.map (fun u => u.Status) =
      some update.Status := by
  by_cases he : evt.AttachedObjects.isEmpty <;>
    simp [fetchDocument, hdoc, prepareAttachments, he,
      attachLoop_off p env evt.Type' hall hinc, sendUpdate_sent_Status]

theorem sendUpdate_fetchDocument_sent_Document (p : Params) (env : EventEnv)
    (db : TxState) (evt : EventlogItem) (cu : Bool) (ut : String)
    (isNew : Bool) (tv : Int) (update : UpdateRequest) (doc : Document)
    (hdoc : env.getDoc evt.Version = .ok doc)
    (hall : p.AllAttachments = false) (hinc : p.IncludeAttachments = []) :
    (sendUpdate env db evt cu ut isNew tv
      (fetchDocument p env evt update)).updateSent.map (fun u => u.Document) =
      some (some doc) := by
  by_cases he : evt.AttachedObjects.isEmpty <;>
    simp [fetchDocument, hdoc, prepareAttachments, he,
      attachLoop_off p env evt.Type' hall hinc, sendUpdate_sent_Document]

theorem sendUpdate_fetchDocument_sent_ImportDirective (p : Params)
    (env : EventEnv) (db : TxState) (evt : EventlogItem) (cu : Bool)
    (ut : String) (isNew : Bool) (tv : Int) (update : UpdateRequest)
    (doc : Document)
    (hdoc : env.getDoc evt.Version = .ok doc)
    (hall : p.AllAttachments = false) (hinc : p.IncludeAttachments = []) :
    (sendUpdate env db evt cu ut isNew tv
      (fetchDocument p env evt update)).updateSent.map
        (fun u => u.ImportDirective) =
      some update.ImportDirective := by
  by_cases he : evt.AttachedObjects.isEmpty <;>
    simp [fetchDocument, hdoc, prepareAttachments, he,
      attachLoop_off p env evt.Type' hall hinc, sendUpdate_sent_ImportDirective]

/-! ### Claim theorems -/

/-- C2 counterexample: a catch-up event for a document that already has a
target-doc record (`isNew = false`).  The update is issued, but `Acl`
stays empty (not `meta.Acl`) and the `ImportDirective` stays
`{event.Timestamp, event.UpdaterUri}` (not `{meta.Created,
meta.CreatorUri}`), contradicting the claim that these are set for every
non-delete, non-ignored event while catching up. -/
theorem catchup_acl_directive_counterexample :
    (handleEvent pNone c2env c2db c2evt false).updateSent.map (fun u => u.Acl) =
      some [] ∧
    (handleEvent pNone c2env c2db c2evt false).updateSent.map
      (fun u => u.ImportDirective) =
      some (some { OriginallyCreated := "2024-05-05T00:00:00Z"
                   OriginalCreator := "core://user/bob" }) ∧
    c2env.getMeta = .ok c2meta ∧
    c2meta.Acl = ["unit://sports doc_read"] ∧
    c2meta.Created = "2020-01-01T00:00:00Z" ∧
    c2meta.CreatorUri = "core://user/creator" ∧
    c2evt.Type' ≠ TypeDeleteDocument := by
  refine ⟨by decide, by decide, rfl, rfl, rfl, rfl, by decide⟩

/-- C2 amended: while catching up, every non-delete, non-ignored event is
turned into a full document snapshot (the update carries the document
fetched at `meta.CurrentVersion` and a status update for exactly the heads
at `CurrentVersion`), but `update.Acl` and the meta-based
`ImportDirective` are set only on first ingest (no target-doc record yet);
for an already-known document `Acl` is left unset and the
`ImportDirective` keeps `{event.Timestamp, event.UpdaterUri}`. -/
theorem catchup_snapshot_amended (p : Params) (env : EventEnv) (db : TxState)
    (evt : EventlogItem) (meta : DocumentMeta) (doc : Document)
    (hsub : evt.UpdaterUri ∉ p.IgnoreSubs)
    (htyp : evt.Type' ∉ p.IgnoreTypes)
    (hdel : evt.Type' ≠ TypeDeleteDocument)
    (hb : env.faults.beginTx = false)
    (hg : env.faults.getDocumentVersion = false)
    (hmeta : env.getMeta = .ok meta)
    (hdoc : env.getDoc meta.CurrentVersion = .ok doc)
    (hall : p.AllAttachments = false)
    (hinc : p.IncludeAttachments = []) :
    (handleEvent p env db evt false).updateSent.map (fun u => u.Document) =
      some (some doc) ∧
    (handleEvent p env db evt false).updateSent.map (fun u => u.Status) =
      some ((meta.Heads.filter
          (fun h => h.2.Version == meta.CurrentVersion)).map
        (fun h => { Name := h.1, Version := 0, Meta := h.2.Meta })) ∧
    (db.docs evt.Uuid = none →
      (handleEvent p env db evt false).updateSent.map (fun u => u.Acl) =
        some meta.Acl ∧
      (handleEvent p env db evt false).updateSent.map
        (fun u => u.ImportDirective) =
        some (some { OriginallyCreated := meta.Created
                     OriginalCreator := meta.CreatorUri })) ∧
    (∀ v : Int, db.docs evt.Uuid = some v →
      (handleEvent p env db evt false).updateSent.map (fun u => u.Acl) =
        some [] ∧
      (handleEvent p env db evt false).updateSent.map
        (fun u => u.ImportDirective) =
        some (some { OriginallyCreated := evt.Timestamp
                     OriginalCreator := evt.UpdaterUri })) := by
  rcases hrowd : db.docs evt.Uuid with _ | v <;>
    simp [handleEvent, handleEventWith, hsub, htyp, hdel, hb, hg, hrowd,
      enrichCatchUp, hmeta, hall, hinc, hdoc,
      sendUpdate_fetchDocument_sent_Acl,
      sendUpdate_fetchDocument_sent_Status,
      sendUpdate_fetchDocument_sent_Document,
      sendUpdate_fetchDocument_sent_ImportDirective]

/-- C2 witness (amended claim): the existing-document case — the update
carries the current-version document and the head at `CurrentVersion`,
with `Acl` unset and the event-based `ImportDirective`. -/
theorem catchup_snapshot_amended_witness :
    c2env.getMeta = .ok c2meta ∧
    c2env.getDoc c2meta.CurrentVersion = .ok plainDoc ∧
    c2db.docs c2evt.Uuid = some 10 ∧
    ((handleEvent pNone c2env c2db c2evt false).updateSent.map
        (fun u => u.Document) = some (some plainDoc) ∧
      (handleEvent pNone c2env c2db c2evt false).updateSent.map
        (fun u => u.Status) =
        some ((c2meta.Heads.filter
            (fun h => h.2.Version == c2meta.CurrentVersion)).map
          (fun h => { Name := h.1, Version := 0, Meta := h.2.Meta })) ∧
      (c2db.docs c2evt.Uuid = none →
        (handleEvent pNone c2env c2db c2evt false).updateSent.map
          (fun u => u.Acl) = some c2meta.Acl ∧
        (handleEvent pNone c2env c2db c2evt false).updateSent.map
          (fun u => u.ImportDirective) =
          some (some { OriginallyCreated := c2meta.Created
                       OriginalCreator := c2meta.CreatorUri })) ∧
      (∀ v : Int, c2db.docs c2evt.Uuid = some v →
        (handleEvent pNone c2env c2db c2evt false).updateSent.map
          (fun u => u.Acl) = some [] ∧
        (handleEvent pNone c2env c2db c2evt false).updateSent.map
          (fun u => u.ImportDirective) =
          some (some { OriginallyCreated := c2evt.Timestamp
                       OriginalCreator := c2evt.UpdaterUri }))) :=
  ⟨rfl, by decide, by decide,
    catchup_snapshot_amended pNone c2env c2db c2evt c2meta plainDoc
      (by decide) (by decide) (by decide) (by decide) (by decide) rfl
      (by decide) (by decide) (by decide)⟩

/-- C1: if the target `Update` call returns `FailedPrecondition`,
`handleEvent` returns conflict, the open transaction is rolled back (no
target-doc record, version-mapping row or checkpoint mutation from the
event is committed: the database is unchanged), and the replication loop
still advances the persisted checkpoint past the conflicting event's id
instead of terminating. -/
theorem conflict_rollback_checkpoint_advance (p : Params) (env : EventEnv)
    (db : TxState) (evt : EventlogItem) (cu : Bool)
    (hsent : (handleEvent p env db evt cu).updateSent.isSome)
    (hfp : env.updateResult = .failedPrecondition)
    (hid : evt.Id ≠ 0) :
    (handleEvent p env db evt cu).result = .conflict ∧
    (handleEvent p env db evt cu).db = db ∧
    (handleEvent p env db evt cu).deleteSent = none ∧
    ∀ pos0 : Int, replicateBatch p (fun _ => env) cu [evt] db pos0 =
      some (db.SetState { CaughtUp := cu, Position := evt.Id }) := by
  obtain ⟨h1, h2, h3⟩ :=
    handleEventWith_conflict p env (fetchDocument p env) db evt cu hfp hsent
  have hid' : (0 : Int) ≠ evt.Id := Ne.symm hid
  refine ⟨h1, h2, h3, ?_⟩
  intro pos0
  by_cases hw : evt.Event = TypeWorkflow
  · simp [replicateBatch, processItems, hw, hid']
  · simp [replicateBatch, processItems, hw, hid', handleEvent, h1, h2]

/-- C1 witness: a live document event against an empty database, with the
target answering `FailedPrecondition`. -/
theorem conflict_rollback_checkpoint_advance_witness :
    (handleEvent pNone c1env emptyDb c1evt true).updateSent.isSome = true ∧
    c1env.updateResult = .failedPrecondition ∧
    c1evt.Id ≠ 0 ∧
    ((handleEvent pNone c1env emptyDb c1evt true).result = .conflict ∧
      (handleEvent pNone c1env emptyDb c1evt true).db = emptyDb ∧
      (handleEvent pNone c1env emptyDb c1evt true).deleteSent = none ∧
      ∀ pos0 : Int,
        replicateBatch pNone (fun _ => c1env) true [c1evt] emptyDb pos0 =
          some (emptyDb.SetState { CaughtUp := true, Position := c1evt.Id })) :=
  ⟨by decide, by decide, by decide,
    conflict_rollback_checkpoint_advance pNone c1env emptyDb c1evt true
      (by decide) (by decide) (by decide)⟩

/-- C3: for a live-regime status event whose source version has a
version-mapping row `(doc, v) ↦ tv` and whose source status fetch
succeeds, the target `Update` request carries exactly one status update:
name = the event's `Status`, `Version` = the mapped target version `tv`,
`Meta` = the fetched source status meta. -/
theorem live_status_maps_target_version (p : Params) (env : EventEnv)
    (db : TxState) (evt : EventlogItem) (tv : Int)
    (meta : List (String × String))
    (hsub : evt.UpdaterUri ∉ p.IgnoreSubs)
    (htyp : evt.Type' ∉ p.IgnoreTypes)
    (hdel : evt.Type' ≠ TypeDeleteDocument)
    (hev : evt.Event = TypeNewStatus)
    (hb : env.faults.beginTx = false)
    (hg : env.faults.getDocumentVersion = false)
    (hm : env.faults.getTargetVersion = false)
    (hrow : db.mappings evt.Uuid evt.Version = some tv)
    (hst : env.getStatus = .ok meta) :
    (handleEvent p env db evt true).updateSent.map (fun u => u.Status) =
      some [{ Name := evt.Status, Version := tv, Meta := meta }] := by
  simp [handleEvent, handleEventWith, hsub, htyp, hdel, hb, hg, hev,
    status_ne_document, status_ne_acl, fetchStatus, hm, hrow,
    fetchStatusRest, hst, sendUpdate_sent_Status]

/-- C3 witness: spec scenario 2 — row `(u, 5) ↦ 11`, live event
`{type: status, version: 5, status: approved, statusId: 42}`; the sent
status update carries `Version = 11`. -/
theorem live_status_maps_target_version_witness :
    c3evt.UpdaterUri ∉ pNone.IgnoreSubs ∧
    c3db.mappings c3evt.Uuid c3evt.Version = some 11 ∧
    c3env.getStatus = .ok [("why", "it is fine")] ∧
    (handleEvent pNone c3env c3db c3evt true).updateSent.map
      (fun u => u.Status) =
      some [{ Name := c3evt.Status, Version := 11
              Meta := [("why", "it is fine")] }] :=
  ⟨by decide, by decide, by decide,
    live_status_maps_target_version pNone c3env c3db c3evt 11
      [("why", "it is fine")] (by decide) (by decide) (by decide) rfl
      (by decide) (by decide) (by decide) (by decide) rfl⟩

/-- C4: a live-regime status event whose source version has no
version-mapping row is skipped without any target repository RPC and
without touching the database, and the replication loop still advances the
persisted checkpoint past the event's id. -/
theorem live_status_without_mapping_skips (p : Params) (env : EventEnv)
    (db : TxState) (evt : EventlogItem)
    (hsub : evt.UpdaterUri ∉ p.IgnoreSubs)
    (htyp : evt.Type' ∉ p.IgnoreTypes)
    (hdel : evt.Type' ≠ TypeDeleteDocument)
    (hev : evt.Event = TypeNewStatus)
    (hb : env.faults.beginTx = false)
    (hg : env.faults.getDocumentVersion = false)
    (hm : env.faults.getTargetVersion = false)
    (hrow : db.mappings evt.Uuid evt.Version = none)
    (hid : evt.Id ≠ 0) :
    (handleEvent p env db evt true).result = .skipped ∧
    (handleEvent p env db evt true).updateSent = none ∧
    (handleEvent p env db evt true).deleteSent = none ∧
    (handleEvent p env db evt true).db = db ∧
    ∀ pos0 : Int, replicateBatch p (fun _ => env) true [evt] db pos0 =
      some (db.SetState { CaughtUp := true, Position := evt.Id }) := by
  have hskip : handleEvent p env db evt true =
      { result := .skipped, db := db, updateSent := none, deleteSent := none } := by
    simp [handleEvent, handleEventWith, hsub, htyp, hdel, hb, hg, hev,
      status_ne_document, status_ne_acl, fetchStatus, hm, hrow, sendUpdate_error]
  have hw : evt.Event ≠ TypeWorkflow := by rw [hev]; exact status_ne_workflow
  have hid' : (0 : Int) ≠ evt.Id := Ne.symm hid
  refine ⟨by rw [hskip], by rw [hskip], by rw [hskip], by rw [hskip], ?_⟩
  intro pos0
  simp [replicateBatch, processItems, hw, hskip, hid']

/-- C4 witness: spec scenario 3 — no row for `(u, 5)`: no target RPC, the
checkpoint advances. -/
theorem live_status_without_mapping_skips_witness :
    emptyDb.mappings c4evt.Uuid c4evt.Version = none ∧
    c4evt.Id ≠ 0 ∧
    ((handleEvent pNone c4env emptyDb c4evt true).result = .skipped ∧
      (handleEvent pNone c4env emptyDb c4evt true).updateSent = none ∧
      (handleEvent pNone c4env emptyDb c4evt true).deleteSent = none ∧
      (handleEvent pNone c4env emptyDb c4evt true).db = emptyDb ∧
      ∀ pos0 : Int,
        replicateBatch pNone (fun _ => c4env) true [c4evt] emptyDb pos0 =
          some (emptyDb.SetState { CaughtUp := true, Position := c4evt.Id })) :=
  ⟨by decide, by decide,
    live_status_without_mapping_skips pNone c4env emptyDb c4evt
      (by decide) (by decide) (by decide) rfl (by decide) (by decide)
      (by decide) (by decide) (by decide)⟩

/-- C5 (code bug): the source dispatches the delete path on the
document-type field `Type`, not on the event-kind field `Event`.  An event
with `Event = delete_document` and an ordinary document type is NOT
deleted: it falls through to the switch default and is skipped, no target
`Delete` is issued and nothing is removed.  Had the delete path been
reached, it would have issued the `Delete` carrying
`original_delete_record = DeleteRecordId` (last conjunct). -/
theorem delete_event_dispatch_bug :
    c5evt.Event = TypeDeleteDocument ∧
    c5evt.Type' ≠ TypeDeleteDocument ∧
    (handleEvent pNone c5env emptyDb c5evt true).result = .skipped ∧
    (handleEvent pNone c5env emptyDb c5evt true).deleteSent = none ∧
    (handleEvent pNone c5env emptyDb c5evt true).updateSent = none ∧
    (handleEvent pNone c5env emptyDb c5evt true).db = emptyDb ∧
    (handleDeleteEvent c5env emptyDb c5evt).result = .applied ∧
    (handleDeleteEvent c5env emptyDb c5evt).deleteSent =
      some { Uuid := c5evt.Uuid
             Meta := [("original_delete_record", "77")] } := by
  refine ⟨rfl, by decide, rfl, rfl, rfl, rfl, by decide, by decide⟩

/-- C6: the position the log follower is started after is
`max(checkpoint.position, START_EVENT)`: `MinEventID` is a floor, never a
ceiling — when the persisted position is already at or above it, the start
position is exactly the persisted position. -/
theorem run_start_position_floor (stored : Option LogState) (m : Int) :
    runStartPosition stored m = max (LoadStateResult stored).Position m ∧
    (LoadStateResult stored).Position ≤ runStartPosition stored m ∧
    m ≤ runStartPosition stored m ∧
    (m ≤ (LoadStateResult stored).Position →
      runStartPosition stored m = (LoadStateResult stored).Position) :=
  ⟨rfl, le_max_left _ _, le_max_right _ _, fun h => max_eq_left h⟩

/-- C6 witness: persisted position 5 with `START_EVENT = 3` starts after
5. -/
theorem run_start_position_floor_witness :
    (3 : Int) ≤ (LoadStateResult (some { CaughtUp := true, Position := 5 })).Position ∧
    runStartPosition (some { CaughtUp := true, Position := 5 }) 3 =
      (LoadStateResult (some { CaughtUp := true, Position := 5 })).Position :=
  ⟨by decide,
    (run_start_position_floor (some { CaughtUp := true, Position := 5 }) 3).2.2.2
      (by decide)⟩

/-- C7 (spec-modelled consult site): a document-type event whose fetched
body is rejected by the configured content filter is skipped after the
fetch: no target `Update` is issued and the database is untouched. -/
theorem content_filter_rejection_skips (cf : ContentFilter) (p : Params)
    (env : EventEnv) (db : TxState) (evt : EventlogItem) (doc : Document)
    (hsub : evt.UpdaterUri ∉ p.IgnoreSubs)
    (htyp : evt.Type' ∉ p.IgnoreTypes)
    (hdel : evt.Type' ≠ TypeDeleteDocument)
    (hev : evt.Event = TypeDocumentVersion)
    (hb : env.faults.beginTx = false)
    (hg : env.faults.getDocumentVersion = false)
    (hdoc : env.getDoc evt.Version = .ok doc)
    (hchk : cf.Check doc = false) :
    (handleEventFiltered cf p env db evt true).result = .skipped ∧
    (handleEventFiltered cf p env db evt true).updateSent = none ∧
    (handleEventFiltered cf p env db evt true).deleteSent = none ∧
    (handleEventFiltered cf p env db evt true).db = db := by
  simp [handleEventFiltered, handleEventWith, hsub, htyp, hdel, hb, hg, hev,
    fetchDocumentFiltered, hdoc, hchk, sendUpdate_error]

/-- C7 witness: the filter built by the source constructor from
`core/article:<section>` rejects a document linking that section; the
event is skipped with no target write. -/
theorem content_filter_rejection_skips_witness :
    c7cf.Check c7doc = false ∧
    c7env.getDoc c7evt.Version = .ok c7doc ∧
    ((handleEventFiltered c7cf pNone c7env emptyDb c7evt true).result = .skipped ∧
      (handleEventFiltered c7cf pNone c7env emptyDb c7evt true).updateSent = none ∧
      (handleEventFiltered c7cf pNone c7env emptyDb c7evt true).deleteSent = none ∧
      (handleEventFiltered c7cf pNone c7env emptyDb c7evt true).db = emptyDb) :=
  ⟨by decide, by decide,
    content_filter_rejection_skips c7cf pNone c7env emptyDb c7evt c7doc
      (by decide) (by decide) (by decide) rfl (by decide) (by decide)
      (by decide) (by decide)⟩

/-- C8 (code bug): a database error other than `pgx.ErrNoRows` in the
status path's version-map lookup is NOT returned as fatal: the source only
checks the no-rows condition, drops the error and continues with the zero
value, so the event is applied with a status update carrying
`Version = 0`. -/
theorem status_map_lookup_error_not_fatal :
    c8env.faults.getTargetVersion = true ∧
    (handleEvent pNone c8env emptyDb c8evt true).result = .applied ∧
    (handleEvent pNone c8env emptyDb c8evt true).result ≠ .fatal ∧
    (handleEvent pNone c8env emptyDb c8evt true).updateSent.map
      (fun u => u.Status) =
      some [{ Name := "approved", Version := 0, Meta := [("note", "x")] }] := by
  refine ⟨rfl, by decide, by decide, by decide⟩

/-- C10: `handleDeleteEvent` never writes the checkpoint state blob (first
conjunct, over every environment); hence when the last item of a batch is
handled by the delete path and is applied, `lastSaved = pos` suppresses the
loop's post-batch checkpoint write as well, and the persisted checkpoint
stays where it was — below the delete event's id. -/
theorem delete_path_checkpoint_suppressed (p : Params) (env : EventEnv)
    (db : TxState) (evt : EventlogItem) (cu : Bool)
    (hsub : evt.UpdaterUri ∉ p.IgnoreSubs)
    (htyp : evt.Type' ∉ p.IgnoreTypes)
    (hdel : evt.Type' = TypeDeleteDocument)
    (hw : evt.Event ≠ TypeWorkflow)
    (happ : (handleEvent p env db evt cu).result = .applied) :
    (∀ env' db' evt',
      (handleDeleteEvent env' db' evt').db.stateBlob = db'.stateBlob) ∧
    (handleEvent p env db evt cu).db.stateBlob = db.stateBlob ∧
    ∀ pos0 : Int, replicateBatch p (fun _ => env) cu [evt] db pos0 =
      some ((handleEvent p env db evt cu).db) := by
  have hdisp := handleEvent_delete_dispatch p env db evt cu hsub htyp hdel
  refine ⟨fun env' db' evt' => handleDeleteEvent_stateBlob env' db' evt', ?_, ?_⟩
  · rw [hdisp]
    exact handleDeleteEvent_stateBlob env db evt
  · intro pos0
    simp [replicateBatch, processItems, hw, happ]

/-- C9: when an applied event leaves a version-mapping row `(u, sv) ↦ tv`
that was not there with that value before, the committed state's
target-doc record for `u` carries `target_version = tv`; moreover the
bookkeeping order (`SetDocumentVersion` before `AddVersionMapping`, same
transaction) means the target-doc record already holds `tv` at the moment
the mapping row is inserted (second conjunct). -/
theorem version_mapping_implies_target_doc (p : Params) (env : EventEnv)
    (db : TxState) (evt : EventlogItem) (cu : Bool) (u : String) (sv tv : Int)
    (happ : (handleEvent p env db evt cu).result = .applied)
    (hrow : (handleEvent p env db evt cu).db.mappings u sv = some tv)
    (hnew : db.mappings u sv ≠ some tv) :
    (handleEvent p env db evt cu).db.docs u = some tv ∧
    ∀ db0 : TxState,
      ((db0.SetDocumentVersion u tv).AddVersionMapping u sv tv).docs u = some tv ∧
      ((db0.SetDocumentVersion u tv).AddVersionMapping u sv tv).mappings u sv = some tv := by
  rcases handleEventWith_mappings p env (fetchDocument p env) db evt cu u sv tv
      happ hrow with h | h
  · exact absurd h hnew
  · refine ⟨h, fun db0 => ?_⟩
    constructor <;>
      simp [TxState.SetDocumentVersion, TxState.AddVersionMapping]

/-- C9 witness: an applied live document event inserts `(u, 3) ↦ 7` and the
target-doc record for `u` holds 7. -/
theorem version_mapping_implies_target_doc_witness :
    (handleEvent pNone c9env emptyDb c9evt true).result = .applied ∧
    (handleEvent pNone c9env emptyDb c9evt true).db.mappings c9evt.Uuid 3 = some 7 ∧
    emptyDb.mappings c9evt.Uuid 3 ≠ some 7 ∧
    ((handleEvent pNone c9env emptyDb c9evt true).db.docs c9evt.Uuid = some 7 ∧
      ∀ db0 : TxState,
        ((db0.SetDocumentVersion c9evt.Uuid 7).AddVersionMapping c9evt.Uuid 3 7).docs
          c9evt.Uuid = some 7 ∧
        ((db0.SetDocumentVersion c9evt.Uuid 7).AddVersionMapping c9evt.Uuid 3 7).mappings
          c9evt.Uuid 3 = some 7) :=
  ⟨by decide, by decide, by decide,
    version_mapping_implies_target_doc pNone c9env emptyDb c9evt true
      c9evt.Uuid 3 7 (by decide) (by decide) (by decide)⟩

/-- C10 witness: an applied delete-path event as the whole batch; the
persisted blob stays at position 2, below the event id 16. -/
theorem delete_path_checkpoint_suppressed_witness :
    c10evt.Type' = TypeDeleteDocument ∧
    (handleEvent pNone c10env c10db c10evt true).result = .applied ∧
    c10db.stateBlob = some { CaughtUp := true, Position := 2 } ∧
    ((∀ env' db' evt',
        (handleDeleteEvent env' db' evt').db.stateBlob = db'.stateBlob) ∧
      (handleEvent pNone c10env c10db c10evt true).db.stateBlob =
        c10db.stateBlob ∧
      ∀ pos0 : Int,
        replicateBatch pNone (fun _ => c10env) true [c10evt] c10db pos0 =
          some ((handleEvent pNone c10env c10db c10evt true).db)) :=
  ⟨rfl, by decide, rfl,
    delete_path_checkpoint_suppressed pNone c10env c10db c10evt true
      (by decide) (by decide) rfl (by decide) (by decide)⟩

end Replicant
